import Mathlib

/-!
Shallow embedding of the talk-time metering core of the Ronit AI backend
(src/app.py): the session lifecycle engine (check-in, heartbeat, end),
flush reconciliation, the monthly community refill, and the admin/payment
balance adjustments.

Modelling conventions:
* Balances and timestamps are rationals (seconds).  Python's float
  arithmetic on these quantities is modelled as exact rational arithmetic;
  none of the verified properties depend on rounding of binary floats.
* `pyInt` models Python's `int()` conversion (truncation toward zero).
* `tdDays` models `timedelta.days` (floor of the total seconds / 86400).
* The Redis key `session:{email}` is the `slot` field of `State`; the key's
  TTL is not modelled (no verified property concerns expiry).
* The per-user Redis lock is modelled by a boolean parameter `lockAcquired`
  of `secure_heartbeat`: whether the non-blocking acquisition succeeded.
* `get_user` returning `None` (no ledger record) is `State.user = none`.
  Code paths that would raise an `AttributeError` by calling `.get` on that
  `None` (and hence abort the request with Flask's generic 500 handler) are
  modelled by `Option`-valued results / a dedicated 500 response.
-/

namespace RonitAI

/-- Python `int()` on a real quantity: truncation toward zero. -/
def pyInt (q : ℚ) : ℤ := if 0 ≤ q then ⌊q⌋ else ⌈q⌉

/-- Python `timedelta.days` of a duration of `d` seconds: floor division by 86400. -/
def tdDays (d : ℚ) : ℤ := ⌊d / 86400⌋

/-- The fields of the Supabase `users` row that the metering core reads and
writes.  `last_community_refill` is the stored timestamp (seconds), `none`
when the column is null/absent. -/
structure UserRecord where
  talktime : ℚ
  is_community_member : Bool
  last_community_refill : Option ℚ
deriving Repr, DecidableEq

/-- The Redis session record `{"session_id": ..., "last_heartbeat": ...}`. -/
structure Slot where
  session_id : ℕ
  last_heartbeat : ℚ
deriving Repr, DecidableEq

/-- Combined state of the two stores for one user: the durable ledger row
(`none` = no row for this email) and the ephemeral heartbeat slot
(`none` = no `session:{email}` key in Redis). -/
structure State where
  user : Option UserRecord
  slot : Option Slot
deriving Repr, DecidableEq

/-- `SESSION_TTL = 3600` (src/app.py line 206); the TTL itself is not part of
the verified state, the constant is kept for reference. -/
def SESSION_TTL : ℕ := 3600

/-- `MAX_HEARTBEAT_GAP = 10.0` (src/app.py line 1161). -/
def MAX_HEARTBEAT_GAP : ℚ := 10

/-- `flush_pending_time` (src/app.py lines 211-238).  If a session record is
present in Redis it is deleted, the elapsed delta since its last heartbeat is
clamped to `[0, 15]`, and a positive clamped delta is deducted from the
balance with a floor of 0.  A missing ledger row makes the inner
`user.get(...)` raise; the surrounding `try/except` swallows it after the
slot was already deleted. -/
def flush_pending_time (now : ℚ) (s : State) : State :=
  match s.slot with
  | none => s
  | some slot =>
    let s₁ : State := { s with slot := none }
    let delta₀ := now - slot.last_heartbeat
    let delta₁ := if delta₀ > 15 then (15 : ℚ) else delta₀
    let delta := if delta₁ < 0 then (0 : ℚ) else delta₁
    if delta > 0 then
      match s₁.user with
      | none => s₁
      | some u =>
        { s₁ with user := some { u with talktime := max 0 (u.talktime - delta) } }
    else s₁

/-- `check_and_refill_community_bonus` (src/app.py lines 241-293).  Returns
the new state and whether a refill was applied.  Timestamps are assumed
well-formed, so the parse-failure fallback branch is not reachable in the
model. -/
def check_and_refill_community_bonus (now : ℚ) (s : State) : State × Bool :=
  match s.user with
  | none => (s, false)
  | some u =>
    if !u.is_community_member then (s, false)
    else
      let should_refill : Bool :=
        match u.last_community_refill with
        | none => true
        | some last_refill => decide (30 ≤ tdDays (now - last_refill))
      if should_refill then
        ({ s with user := some { u with
             talktime := ((pyInt u.talktime + 900 : ℤ) : ℚ),
             last_community_refill := some now } }, true)
      else (s, false)

/-- `add_talktime_to_user` (src/app.py lines 613-619).  A missing row is
treated as a zero balance and `update_user` creates the row (with the
membership flag absent, i.e. falsy, and no refill timestamp). -/
def add_talktime_to_user (amount : ℤ) (s : State) : State :=
  let u := s.user.getD { talktime := 0, is_community_member := false,
                         last_community_refill := none }
  { s with user := some { u with talktime := max 0 (u.talktime + (amount : ℚ)) } }

/-- `set_user_talktime` (src/app.py lines 621-623). -/
def set_user_talktime (amount : ℤ) (s : State) : State :=
  let u := s.user.getD { talktime := 0, is_community_member := false,
                         last_community_refill := none }
  { s with user := some { u with talktime := max 0 ((amount : ℤ) : ℚ) } }

/-- The JSON body and HTTP status produced by `/api/session/start`. -/
structure CheckInResponse where
  status : ℕ
  ok : Option Bool
  error : Option String
  session_id : Option ℕ
  remaining_seconds : Option ℤ
deriving Repr, DecidableEq

/-- Flask's generic 500 handler output (src/app.py lines 374-381), produced
when `user.get` is called on `None`. -/
def internalErrorResp : CheckInResponse :=
  { status := 500, ok := none, error := some "Internal Server Error",
    session_id := none, remaining_seconds := none }

/-- The 403 body for non-community members (src/app.py line 1095). -/
def accessDeniedResp : CheckInResponse :=
  { status := 403, ok := some false,
    error := some "Access Restricted: You must be a Community Member to use Ronit.",
    session_id := none, remaining_seconds := none }

/-- The 402 body for an exhausted balance (src/app.py line 1098). -/
def insufficientFundsResp : CheckInResponse :=
  { status := 402, ok := some false, error := some "Insufficient Funds",
    session_id := none, remaining_seconds := none }

/-- The 200 body on successful check-in (src/app.py lines 1119-1124). -/
def checkInOkResp (sid : ℕ) (remaining : ℤ) : CheckInResponse :=
  { status := 200, ok := some true, error := none,
    session_id := some sid, remaining_seconds := some remaining }

/-- `start_secure_session` (src/app.py lines 1081-1124).  `sid` stands for
the freshly generated session id.  Note the membership check dereferences
the ledger row before the `not user` guard, so a missing row raises and the
request ends in the generic 500 handler. -/
def start_secure_session (sid : ℕ) (now : ℚ) (s : State) : State × CheckInResponse :=
  match s.user with
  | none => (s, internalErrorResp)
  | some u =>
    if !u.is_community_member then (s, accessDeniedResp)
    else if pyInt u.talktime ≤ 0 then (s, insufficientFundsResp)
    else ({ s with slot := some { session_id := sid, last_heartbeat := now } },
          checkInOkResp sid (pyInt u.talktime))

/-- The JSON body and HTTP status produced by `/api/session/heartbeat`. -/
structure HbResponse where
  status : ℕ
  ok : Bool
  action : Option String
  reason : Option String
  note : Option String
  remaining_seconds : Option ℚ
  deducted : Option ℚ
deriving Repr, DecidableEq

/-- Lock-contention no-op body (src/app.py lines 1133-1139). -/
def lockedResp (bal : ℚ) : HbResponse :=
  { status := 200, ok := true, action := none, reason := none,
    note := some "locked", remaining_seconds := some bal, deducted := some 0 }

/-- Missing-slot body, deliberately 400 and not 401 (src/app.py line 1148). -/
def noSessionResp : HbResponse :=
  { status := 400, ok := false, action := some "restart",
    reason := some "Session not found in Redis", note := none,
    remaining_seconds := none, deducted := none }

/-- Gap-exceeded termination body (src/app.py lines 1174-1179). -/
def gapTerminateResp (bal : ℚ) : HbResponse :=
  { status := 200, ok := false, action := some "terminate",
    reason := some "Connection Unstable / Timeout", note := none,
    remaining_seconds := some bal, deducted := none }

/-- Sub-floor-delta no-op body (src/app.py lines 1183-1187). -/
def subFloorResp (bal : ℚ) : HbResponse :=
  { status := 200, ok := true, action := none, reason := none, note := none,
    remaining_seconds := some bal, deducted := some 0 }

/-- Exhausted termination body (src/app.py line 1199). -/
def exhaustedResp : HbResponse :=
  { status := 200, ok := false, action := some "terminate", reason := none,
    note := none, remaining_seconds := some 0, deducted := none }

/-- Normal deduction body (src/app.py lines 1208-1212). -/
def hbOkResp (bal deducted : ℚ) : HbResponse :=
  { status := 200, ok := true, action := none, reason := none, note := none,
    remaining_seconds := some bal, deducted := some deducted }

/-- `secure_heartbeat` (src/app.py lines 1126-1217).  `lockAcquired` is the
result of the non-blocking `lock.acquire`; the result is `none` exactly when
the handler raises (`.get` on a missing ledger row) and the request dies in
the 500 handler with no state written.  The TTL refresh on line 1151 is not
part of the modelled state. -/
def secure_heartbeat (lockAcquired : Bool) (now : ℚ) (s : State) :
    Option (State × HbResponse) :=
  if !lockAcquired then
    match s.user with
    | none => none
    | some u => some (s, lockedResp u.talktime)
  else
    match s.slot with
    | none => some (s, noSessionResp)
    | some slot =>
      let delta := now - slot.last_heartbeat
      if delta > MAX_HEARTBEAT_GAP then
        match s.user with
        | none => none
        | some u =>
          let newBal := max 0 (u.talktime - MAX_HEARTBEAT_GAP)
          some ({ user := some { u with talktime := newBal }, slot := none },
                gapTerminateResp newBal)
      else if delta < 1 then
        match s.user with
        | none => none
        | some u => some (s, subFloorResp u.talktime)
      else
        -- dead `if delta_seconds < 0` clamp (unreachable: delta ≥ 1 here)
        let delta := if delta < 0 then (0 : ℚ) else delta
        match s.user with
        | none => none
        | some u =>
          let newBal := max 0 (u.talktime - delta)
          if newBal ≤ 0 then
            some ({ user := some { u with talktime := 0 }, slot := none },
                  exhaustedResp)
          else
            some ({ user := some { u with talktime := newBal },
                    slot := some { slot with last_heartbeat := now } },
                  hbOkResp newBal delta)

/-- `end_secure_session` (src/app.py lines 1219-1224): flush, then
`{"ok": true}` unconditionally. -/
def end_secure_session (now : ℚ) (s : State) : State × Bool :=
  (flush_pending_time now s, true)

/-- One request of the metering core that can touch the persisted balance:
check-in, heartbeat (with its lock-acquisition outcome), flush, explicit
end, the monthly refill, and the payment/admin ledger adjustments. -/
inductive Op where
  | checkIn (sid : ℕ) (now : ℚ)
  | heartbeat (lockAcquired : Bool) (now : ℚ)
  | flush (now : ℚ)
  | endSession (now : ℚ)
  | refill (now : ℚ)
  | addTalktime (amount : ℤ)
  | setTalktime (amount : ℤ)

/-- Effect of one operation on the stores.  A heartbeat that raises
(`none`, only possible with no ledger row) writes nothing. -/
def applyOp (s : State) (op : Op) : State :=
  match op with
  | .checkIn sid now => (start_secure_session sid now s).1
  | .heartbeat l now =>
    match secure_heartbeat l now s with
    | none => s
    | some (s', _) => s'
  | .flush now => flush_pending_time now s
  | .endSession now => (end_secure_session now s).1
  | .refill now => (check_and_refill_community_bonus now s).1
  | .addTalktime a => add_talktime_to_user a s
  | .setTalktime a => set_user_talktime a s

/-- Run a sequence of operations. -/
def run (s : State) (ops : List Op) : State := ops.foldl applyOp s

/-- The persisted balance, if a ledger row exists, is non-negative. -/
def balanceNonneg (s : State) : Prop := ∀ u, s.user = some u → 0 ≤ u.talktime

theorem pyInt_nonneg (q : ℚ) (h : 0 ≤ q) : (0 : ℤ) ≤ pyInt q := by
  unfold pyInt
  rw [if_pos h]
  exact Int.floor_nonneg.mpr h

theorem flush_nonneg (now : ℚ) (s : State) (h : balanceNonneg s) :
    balanceNonneg (flush_pending_time now s) := by
  intro u hu
  simp only [flush_pending_time] at hu
  repeat' split at hu
  all_goals
    first
      | exact h u hu
      | (injection hu with h₄; subst h₄; exact le_max_left 0 _)

theorem refill_nonneg (now : ℚ) (s : State) (h : balanceNonneg s) :
    balanceNonneg (check_and_refill_community_bonus now s).1 := by
  intro u hu
  simp only [check_and_refill_community_bonus] at hu
  split at hu
  · exact h u hu
  next u₀ heq =>
    split at hu
    · exact h u hu
    · split at hu
      · simp only [Option.some.injEq] at hu
        subst hu
        have h₀ : 0 ≤ u₀.talktime := h u₀ heq
        have h₁ : (0 : ℤ) ≤ pyInt u₀.talktime + 900 := by
          have := pyInt_nonneg _ h₀
          linarith
        show (0 : ℚ) ≤ ((pyInt u₀.talktime + 900 : ℤ) : ℚ)
        exact_mod_cast h₁
      · exact h u hu

theorem checkIn_user_eq (sid : ℕ) (now : ℚ) (s : State) :
    (start_secure_session sid now s).1.user = s.user := by
  simp only [start_secure_session]
  split
  · rfl
  · split
    · rfl
    · split <;> rfl

theorem secure_heartbeat_nonneg (l : Bool) (now : ℚ) (s : State)
    (h : balanceNonneg s) (s' : State) (r : HbResponse)
    (heq : secure_heartbeat l now s = some (s', r)) : balanceNonneg s' := by
  simp only [secure_heartbeat] at heq
  repeat' split at heq
  all_goals
    first
      | exact Option.noConfusion heq
      | (injection heq with h₁; injection h₁ with h₂ h₃; subst h₂;
         intro u hu;
         first
           | exact h u hu
           | (injection hu with h₄; subst h₄;
              first
                | exact le_max_left 0 _
                | exact le_sup_left
                | exact le_refl 0))

theorem applyOp_nonneg (op : Op) (s : State) (h : balanceNonneg s) :
    balanceNonneg (applyOp s op) := by
  cases op with
  | checkIn sid now =>
    intro u hu
    rw [applyOp, checkIn_user_eq] at hu
    exact h u hu
  | heartbeat l now =>
    cases hsh : secure_heartbeat l now s with
    | none =>
      intro u hu
      simp only [applyOp, hsh] at hu
      exact h u hu
    | some p =>
      obtain ⟨s', r⟩ := p
      intro u hu
      simp only [applyOp, hsh] at hu
      exact secure_heartbeat_nonneg l now s h s' r hsh u hu
  | flush now => exact flush_nonneg now s h
  | endSession now => exact flush_nonneg now s h
  | refill now => exact refill_nonneg now s h
  | addTalktime a =>
    intro u hu
    simp only [applyOp, add_talktime_to_user, Option.some.injEq] at hu
    subst hu
    exact le_max_left 0 _
  | setTalktime a =>
    intro u hu
    simp only [applyOp, set_user_talktime, Option.some.injEq] at hu
    subst hu
    exact le_max_left 0 _

/-- C1: starting from a state whose persisted balance is non-negative, after
any sequence of metering operations (check-in, heartbeats, flush, end,
refill, payment/admin adjustments) the persisted balance is still
non-negative; since every prefix of a sequence is itself a sequence, the
balance is ≥ 0 after each individual operation. -/
theorem C1_balance_nonneg_invariant (ops : List Op) (s : State)
    (h : balanceNonneg s) : balanceNonneg (run s ops) := by
  induction ops generalizing s with
  | nil => exact h
  | cons op ops ih => exact ih _ (applyOp_nonneg op s h)

/-- Witness for C1 at a concrete state and operation sequence. -/
theorem C1_balance_nonneg_invariant_witness :
    balanceNonneg (run
      { user := some { talktime := 12, is_community_member := true,
                       last_community_refill := none },
        slot := some { session_id := 1, last_heartbeat := 0 } }
      [Op.heartbeat true 5, Op.heartbeat true 13, Op.flush 99,
       Op.addTalktime (-50), Op.refill 100, Op.checkIn 2 100,
       Op.endSession 130]) :=
  C1_balance_nonneg_invariant _ _
    (fun u hu => by injection hu with h; subst h; norm_num)

theorem deduction_bounds (bal d cap : ℚ) (hb : 0 ≤ bal) (hd : 0 ≤ d)
    (hcap : d ≤ cap) :
    0 ≤ bal - max 0 (bal - d) ∧ bal - max 0 (bal - d) ≤ cap := by
  have h₁ : max 0 (bal - d) ≤ bal := max_le hb (by linarith)
  have h₂ : bal - d ≤ max 0 (bal - d) := le_max_right 0 (bal - d)
  constructor <;> linarith

theorem exhausted_bound (bal d cap : ℚ) (hb : 0 ≤ bal) (hcap : d ≤ cap)
    (hz : max 0 (bal - d) ≤ 0) : 0 ≤ bal - 0 ∧ bal - 0 ≤ cap := by
  have h₂ : bal - d ≤ max 0 (bal - d) := le_max_right 0 (bal - d)
  constructor <;> linarith

theorem hb_locked (now : ℚ) (u : UserRecord) (sl : Option Slot) :
    secure_heartbeat false now ⟨some u, sl⟩ =
      some (⟨some u, sl⟩, lockedResp u.talktime) := by
  simp [secure_heartbeat]

theorem hb_no_slot (now : ℚ) (su : Option UserRecord) :
    secure_heartbeat true now ⟨su, none⟩ = some (⟨su, none⟩, noSessionResp) := by
  simp [secure_heartbeat]

theorem hb_gap (now : ℚ) (u : UserRecord) (slot : Slot)
    (hgap : now - slot.last_heartbeat > MAX_HEARTBEAT_GAP) :
    secure_heartbeat true now ⟨some u, some slot⟩ =
      some (⟨some { u with talktime := max 0 (u.talktime - MAX_HEARTBEAT_GAP) },
             none⟩,
            gapTerminateResp (max 0 (u.talktime - MAX_HEARTBEAT_GAP))) := by
  simp [secure_heartbeat, hgap]

theorem hb_subfloor (now : ℚ) (u : UserRecord) (slot : Slot)
    (hgap : ¬ now - slot.last_heartbeat > MAX_HEARTBEAT_GAP)
    (hsub : now - slot.last_heartbeat < 1) :
    secure_heartbeat true now ⟨some u, some slot⟩ =
      some (⟨some u, some slot⟩, subFloorResp u.talktime) := by
  simp [secure_heartbeat, hgap, hsub]

theorem hb_exhausted (now : ℚ) (u : UserRecord) (slot : Slot)
    (hgap : ¬ now - slot.last_heartbeat > MAX_HEARTBEAT_GAP)
    (hsub : ¬ now - slot.last_heartbeat < 1)
    (hex : max 0 (u.talktime - (now - slot.last_heartbeat)) ≤ 0) :
    secure_heartbeat true now ⟨some u, some slot⟩ =
      some (⟨some { u with talktime := 0 }, none⟩, exhaustedResp) := by
  have hneg : ¬ now - slot.last_heartbeat < 0 := by
    intro h
    exact hsub (by linarith)
  simp [secure_heartbeat, hgap, hsub, hneg, hex]

theorem hb_normal (now : ℚ) (u : UserRecord) (slot : Slot)
    (hgap : ¬ now - slot.last_heartbeat > MAX_HEARTBEAT_GAP)
    (hsub : ¬ now - slot.last_heartbeat < 1)
    (hex : ¬ max 0 (u.talktime - (now - slot.last_heartbeat)) ≤ 0) :
    secure_heartbeat true now ⟨some u, some slot⟩ =
      some (⟨some { u with
                    talktime := max 0 (u.talktime - (now - slot.last_heartbeat)) },
             some { session_id := slot.session_id, last_heartbeat := now }⟩,
            hbOkResp (max 0 (u.talktime - (now - slot.last_heartbeat)))
              (now - slot.last_heartbeat)) := by
  have hneg : ¬ now - slot.last_heartbeat < 0 := by
    intro h
    exact hsub (by linarith)
  simp [secure_heartbeat, hgap, hsub, hneg, hex]

/-- C2: whatever the elapsed gap, a single heartbeat call deducts a
non-negative amount of at most `MAX_HEARTBEAT_GAP = 10` seconds from the
persisted balance. -/
theorem C2_single_call_deduction_bounded (l : Bool) (now : ℚ) (s s' : State)
    (r : HbResponse) (u u' : UserRecord)
    (hu : s.user = some u) (h0 : 0 ≤ u.talktime)
    (hcall : secure_heartbeat l now s = some (s', r))
    (hu' : s'.user = some u') :
    0 ≤ u.talktime - u'.talktime ∧
      u.talktime - u'.talktime ≤ MAX_HEARTBEAT_GAP := by
  obtain ⟨su, sl⟩ := s
  have hsu : su = some u := hu
  subst hsu
  cases l with
  | false =>
    rw [hb_locked] at hcall
    injection hcall with h₁
    injection h₁ with hS hR
    subst hS
    injection hu' with h₄
    subst h₄
    constructor <;> norm_num [MAX_HEARTBEAT_GAP]
  | true =>
    cases sl with
    | none =>
      rw [hb_no_slot] at hcall
      injection hcall with h₁
      injection h₁ with hS hR
      subst hS
      injection hu' with h₄
      subst h₄
      constructor <;> norm_num [MAX_HEARTBEAT_GAP]
    | some slot =>
      by_cases hgap : now - slot.last_heartbeat > MAX_HEARTBEAT_GAP
      · rw [hb_gap now u slot hgap] at hcall
        injection hcall with h₁
        injection h₁ with hS hR
        subst hS
        injection hu' with h₄
        subst h₄
        exact deduction_bounds _ _ _ h0 (by norm_num [MAX_HEARTBEAT_GAP]) le_rfl
      · by_cases hsub : now - slot.last_heartbeat < 1
        · rw [hb_subfloor now u slot hgap hsub] at hcall
          injection hcall with h₁
          injection h₁ with hS hR
          subst hS
          injection hu' with h₄
          subst h₄
          constructor <;> norm_num [MAX_HEARTBEAT_GAP]
        · by_cases hex : max 0 (u.talktime - (now - slot.last_heartbeat)) ≤ 0
          · rw [hb_exhausted now u slot hgap hsub hex] at hcall
            injection hcall with h₁
            injection h₁ with hS hR
            subst hS
            injection hu' with h₄
            subst h₄
            exact exhausted_bound _ _ _ h0 (not_lt.mp hgap) hex
          · rw [hb_normal now u slot hgap hsub hex] at hcall
            injection hcall with h₁
            injection h₁ with hS hR
            subst hS
            injection hu' with h₄
            subst h₄
            exact deduction_bounds _ _ _ h0
              (by have := not_lt.mp hsub; linarith) (not_lt.mp hgap)

/-- Witness for C2: balance 100, 45-second gap, the capped path. -/
theorem C2_single_call_deduction_bounded_witness :
    0 ≤ (100 : ℚ) - 90 ∧ (100 : ℚ) - 90 ≤ MAX_HEARTBEAT_GAP :=
  C2_single_call_deduction_bounded true 45
    ⟨some ⟨100, true, none⟩, some ⟨1, 0⟩⟩
    ⟨some ⟨90, true, none⟩, none⟩ (gapTerminateResp 90)
    ⟨100, true, none⟩ ⟨90, true, none⟩
    rfl (by norm_num) (by norm_num [secure_heartbeat, MAX_HEARTBEAT_GAP,
      gapTerminateResp]) rfl

/-- C3: on an active slot with the lock held, a gap above
`MAX_HEARTBEAT_GAP` deducts exactly the cap (floored at 0, never the full
delta), deletes the slot, and returns a terminate action with the
"Connection Unstable / Timeout" reason and the new balance. -/
theorem C3_gap_exceeded_caps_and_terminates (now : ℚ) (s : State)
    (u : UserRecord) (slot : Slot)
    (hu : s.user = some u) (hs : s.slot = some slot)
    (hgap : now - slot.last_heartbeat > MAX_HEARTBEAT_GAP) :
    secure_heartbeat true now s =
      some (⟨some { u with talktime := max 0 (u.talktime - MAX_HEARTBEAT_GAP) },
             none⟩,
            gapTerminateResp (max 0 (u.talktime - MAX_HEARTBEAT_GAP))) ∧
    (gapTerminateResp (max 0 (u.talktime - MAX_HEARTBEAT_GAP))).action =
      some "terminate" ∧
    (gapTerminateResp (max 0 (u.talktime - MAX_HEARTBEAT_GAP))).reason =
      some "Connection Unstable / Timeout" ∧
    (gapTerminateResp (max 0 (u.talktime - MAX_HEARTBEAT_GAP))).remaining_seconds =
      some (max 0 (u.talktime - MAX_HEARTBEAT_GAP)) := by
  obtain ⟨su, sl⟩ := s
  have hsu : su = some u := hu
  have hsl : sl = some slot := hs
  subst hsu
  subst hsl
  exact ⟨hb_gap now u slot hgap, rfl, rfl, rfl⟩

/-- Witness for C3: balance 100, 45-second gap — 10 deducted, 90 remain. -/
theorem C3_gap_exceeded_caps_and_terminates_witness :
    secure_heartbeat true 45 ⟨some ⟨100, true, none⟩, some ⟨1, 0⟩⟩ =
      some (⟨some ⟨90, true, none⟩, none⟩, gapTerminateResp 90) := by
  have h := (C3_gap_exceeded_caps_and_terminates 45
    ⟨some ⟨100, true, none⟩, some ⟨1, 0⟩⟩ ⟨100, true, none⟩ ⟨1, 0⟩
    rfl rfl (by norm_num [MAX_HEARTBEAT_GAP])).1
  rw [h, show max (0 : ℚ) ((100 : ℚ) - MAX_HEARTBEAT_GAP) = 90 by
    rw [MAX_HEARTBEAT_GAP, max_eq_right] <;> norm_num]

/-- C4: on the normal path (1 ≤ delta ≤ MAX_HEARTBEAT_GAP) with delta at
least the current balance, the deduction is clamped to the whole remaining
balance: the balance is persisted as exactly 0, the slot is deleted, and a
terminate (exhausted) body with `remaining_seconds = 0` is returned. -/
theorem C4_normal_path_exhaustion (now : ℚ) (s : State) (u : UserRecord)
    (slot : Slot) (hu : s.user = some u) (hs : s.slot = some slot)
    (h1 : 1 ≤ now - slot.last_heartbeat)
    (h10 : now - slot.last_heartbeat ≤ MAX_HEARTBEAT_GAP)
    (hex : u.talktime ≤ now - slot.last_heartbeat) :
    secure_heartbeat true now s =
      some (⟨some { u with talktime := 0 }, none⟩, exhaustedResp) ∧
    exhaustedResp.action = some "terminate" ∧
    exhaustedResp.remaining_seconds = some 0 := by
  obtain ⟨su, sl⟩ := s
  have hsu : su = some u := hu
  have hsl : sl = some slot := hs
  subst hsu
  subst hsl
  have hgap : ¬ now - slot.last_heartbeat > MAX_HEARTBEAT_GAP := not_lt.mpr h10
  have hsub : ¬ now - slot.last_heartbeat < 1 := not_lt.mpr h1
  have hmax : max 0 (u.talktime - (now - slot.last_heartbeat)) ≤ 0 :=
    max_le le_rfl (by linarith)
  exact ⟨hb_exhausted now u slot hgap hsub hmax, rfl, rfl⟩

/-- Witness for C4: balance 7, 8-second gap — 7 deducted, 0 remain. -/
theorem C4_normal_path_exhaustion_witness :
    secure_heartbeat true 8 ⟨some ⟨7, true, none⟩, some ⟨1, 0⟩⟩ =
      some (⟨some ⟨0, true, none⟩, none⟩, exhaustedResp) :=
  (C4_normal_path_exhaustion 8 ⟨some ⟨7, true, none⟩, some ⟨1, 0⟩⟩
    ⟨7, true, none⟩ ⟨1, 0⟩ rfl rfl (by norm_num)
    (by norm_num [MAX_HEARTBEAT_GAP]) (by norm_num)).1

/-- C5: a heartbeat that fails to acquire the per-user lock, or that
observes a delta below the 1-second floor (negative deltas included), is a
charging no-op: it returns `ok = true`, `deducted = 0` and the current
balance, and leaves the whole state — balance and slot — unchanged. -/
theorem C5_lock_and_subfloor_noop (l : Bool) (now : ℚ) (s : State)
    (u : UserRecord) (hu : s.user = some u)
    (h : l = false ∨
         (l = true ∧ ∃ slot, s.slot = some slot ∧
            now - slot.last_heartbeat < 1)) :
    ∃ r, secure_heartbeat l now s = some (s, r) ∧
      r.ok = true ∧ r.deducted = some 0 ∧
      r.remaining_seconds = some u.talktime := by
  obtain ⟨su, sl⟩ := s
  have hsu : su = some u := hu
  subst hsu
  rcases h with rfl | ⟨rfl, slot, hsl, hsub⟩
  · exact ⟨lockedResp u.talktime, hb_locked now u sl, rfl, rfl, rfl⟩
  · have hslot : sl = some slot := hsl
    subst hslot
    have hgap : ¬ now - slot.last_heartbeat > MAX_HEARTBEAT_GAP := by
      rw [MAX_HEARTBEAT_GAP]
      intro hc
      linarith
    exact ⟨subFloorResp u.talktime, hb_subfloor now u slot hgap hsub, rfl, rfl, rfl⟩

/-- Witness for C5: a lock-contended heartbeat on a concrete state. -/
theorem C5_lock_and_subfloor_noop_witness :
    ∃ r, secure_heartbeat false 5 ⟨some ⟨7, true, none⟩, some ⟨1, 0⟩⟩ =
      some (⟨some ⟨7, true, none⟩, some ⟨1, 0⟩⟩, r) ∧
      r.ok = true ∧ r.deducted = some 0 ∧ r.remaining_seconds = some (7 : ℚ) :=
  C5_lock_and_subfloor_noop false 5 ⟨some ⟨7, true, none⟩, some ⟨1, 0⟩⟩
    ⟨7, true, none⟩ rfl (Or.inl rfl)

theorem hb_user_none (now : ℚ) (slot : Slot) :
    secure_heartbeat true now ⟨none, some slot⟩ = none := by
  simp [secure_heartbeat]

/-- C9: a heartbeat that returns a terminate action (gap exceeded or
exhausted) has already deleted the slot, so a further heartbeat for the
same user with no intervening check-in gets the distinguishable
no-active-session outcome (status 400, not an auth failure, with a restart
action) and deducts nothing (the state is unchanged). -/
theorem C9_termination_finality (now now₂ : ℚ) (s s₁ : State) (r : HbResponse)
    (hcall : secure_heartbeat true now s = some (s₁, r))
    (hterm : r.action = some "terminate") :
    s₁.slot = none ∧
      secure_heartbeat true now₂ s₁ = some (s₁, noSessionResp) ∧
      noSessionResp.status = 400 ∧ noSessionResp.status ≠ 401 ∧
      noSessionResp.action = some "restart" := by
  obtain ⟨su, sl⟩ := s
  cases sl with
  | none =>
    rw [hb_no_slot] at hcall
    injection hcall with h₁
    injection h₁ with hS hR
    subst hR
    exact absurd hterm (by decide)
  | some slot =>
    cases su with
    | none =>
      rw [hb_user_none] at hcall
      exact Option.noConfusion hcall
    | some u =>
      by_cases hgap : now - slot.last_heartbeat > MAX_HEARTBEAT_GAP
      · rw [hb_gap now u slot hgap] at hcall
        injection hcall with h₁
        injection h₁ with hS hR
        subst hS
        exact ⟨rfl, hb_no_slot now₂ _, rfl, by decide, rfl⟩
      · by_cases hsub : now - slot.last_heartbeat < 1
        · rw [hb_subfloor now u slot hgap hsub] at hcall
          injection hcall with h₁
          injection h₁ with hS hR
          subst hR
          exact Option.noConfusion hterm
        · by_cases hex : max 0 (u.talktime - (now - slot.last_heartbeat)) ≤ 0
          · rw [hb_exhausted now u slot hgap hsub hex] at hcall
            injection hcall with h₁
            injection h₁ with hS hR
            subst hS
            exact ⟨rfl, hb_no_slot now₂ _, rfl, by decide, rfl⟩
          · rw [hb_normal now u slot hgap hsub hex] at hcall
            injection hcall with h₁
            injection h₁ with hS hR
            subst hR
            exact Option.noConfusion hterm

/-- Witness for C9: the 45-second-gap termination followed by a heartbeat
that finds no session. -/
theorem C9_termination_finality_witness :
    (⟨some ⟨90, true, none⟩, none⟩ : State).slot = none ∧
      secure_heartbeat true 50 ⟨some ⟨90, true, none⟩, none⟩ =
        some (⟨some ⟨90, true, none⟩, none⟩, noSessionResp) ∧
      noSessionResp.status = 400 ∧ noSessionResp.status ≠ 401 ∧
      noSessionResp.action = some "restart" :=
  C9_termination_finality 45 50 ⟨some ⟨100, true, none⟩, some ⟨1, 0⟩⟩
    ⟨some ⟨90, true, none⟩, none⟩ (gapTerminateResp 90)
    (by norm_num [secure_heartbeat, MAX_HEARTBEAT_GAP, gapTerminateResp]) rfl

theorem pyInt_nonpos (q : ℚ) (h : q ≤ 0) : pyInt q ≤ 0 := by
  unfold pyInt
  split
  · calc ⌊q⌋ ≤ ⌊(0 : ℚ)⌋ := Int.floor_le_floor h
    _ = 0 := Int.floor_zero
  · calc ⌈q⌉ ≤ ⌈(0 : ℚ)⌉ := Int.ceil_le_ceil h
    _ = 0 := Int.ceil_zero

/-- Counterexample to C6 as stated: at a check-in with a community member
whose balance is 0 the call does fail with the 402 insufficient-funds body,
but that body carries no balance field at all — the current balance (0) is
not surfaced in the response. -/
theorem C6_counterexample_balance_not_surfaced :
    (start_secure_session 1 0 ⟨some ⟨0, true, none⟩, none⟩).2 =
      insufficientFundsResp ∧
    (start_secure_session 1 0 ⟨some ⟨0, true, none⟩, none⟩).2.remaining_seconds =
      none ∧
    (start_secure_session 1 0 ⟨some ⟨0, true, none⟩, none⟩).2.remaining_seconds ≠
      some 0 := by
  have h : (start_secure_session 1 0 ⟨some ⟨0, true, none⟩, none⟩).2 =
      insufficientFundsResp := by
    norm_num [start_secure_session, pyInt]
  refine ⟨h, ?_, ?_⟩ <;> rw [h] <;> simp [insufficientFundsResp]

/-- C6 (amended): for a check-in by a user whose ledger record exists, a
non-member fails with the 403 access-denied body; a member with balance ≤ 0
fails with the 402 insufficient-funds body (which carries only the error
message, not the balance); both failures leave the state unchanged (no slot
created, no balance mutated); success creates the slot and performs no
deduction. -/
theorem C6_check_in_guards (sid : ℕ) (now : ℚ) (s : State) (u : UserRecord)
    (hu : s.user = some u) :
    (u.is_community_member = false →
       start_secure_session sid now s = (s, accessDeniedResp)) ∧
    (u.is_community_member = true → u.talktime ≤ 0 →
       start_secure_session sid now s = (s, insufficientFundsResp)) ∧
    (u.is_community_member = true → 0 < pyInt u.talktime →
       start_secure_session sid now s =
         (⟨s.user, some { session_id := sid, last_heartbeat := now }⟩,
          checkInOkResp sid (pyInt u.talktime))) := by
  obtain ⟨su, sl⟩ := s
  have hsu : su = some u := hu
  subst hsu
  refine ⟨?_, ?_, ?_⟩
  · intro hm
    simp [start_secure_session, hm]
  · intro hm hbal
    have hmz : pyInt u.talktime ≤ 0 := pyInt_nonpos _ hbal
    simp [start_secure_session, hm, hmz]
  · intro hm hpos
    have hmz : ¬ pyInt u.talktime ≤ 0 := not_le.mpr hpos
    simp [start_secure_session, hm, hmz]

/-- Witness for C6 (amended): member with balance 0 is refused with the 402
body and no slot is created. -/
theorem C6_check_in_guards_witness :
    start_secure_session 1 0 ⟨some ⟨0, true, none⟩, none⟩ =
      (⟨some ⟨0, true, none⟩, none⟩, insufficientFundsResp) :=
  (C6_check_in_guards 1 0 ⟨some ⟨0, true, none⟩, none⟩ ⟨0, true, none⟩
    rfl).2.1 rfl (by norm_num)

theorem clamp_eq (d : ℚ) :
    (if (if d > 15 then (15 : ℚ) else d) < 0 then (0 : ℚ)
     else if d > 15 then (15 : ℚ) else d) = max 0 (min d 15) := by
  rcases lt_or_le 15 d with h | h
  · rw [if_pos h, if_neg (by norm_num), min_eq_right h.le,
      max_eq_right (by norm_num)]
  · rw [if_neg (not_lt.mpr h), min_eq_left h]
    rcases lt_or_le d 0 with h2 | h2
    · rw [if_pos h2, max_eq_left h2.le]
    · rw [if_neg (not_lt.mpr h2), max_eq_right h2]

theorem flush_noop (now : ℚ) (s : State) (h : s.slot = none) :
    flush_pending_time now s = s := by
  obtain ⟨su, sl⟩ := s
  have hsl : sl = none := h
  subst hsl
  rfl

theorem flush_slot_none (now : ℚ) (s : State) :
    (flush_pending_time now s).slot = none := by
  obtain ⟨su, sl⟩ := s
  cases sl with
  | none => rfl
  | some slot =>
    simp only [flush_pending_time]
    repeat' split
    all_goals rfl

/-- C7: with a slot present, flush clamps the elapsed delta into `[0, 15]`,
deducts the clamped amount (floored at 0) and deletes the slot; with no
slot it is a no-op, so `end` with no slot succeeds with the balance
unchanged, and repeated `end` calls are idempotent. -/
theorem C7_flush_reconciliation (now : ℚ) (s : State) (u : UserRecord)
    (hu : s.user = some u) (h0 : 0 ≤ u.talktime) :
    (∀ slot, s.slot = some slot →
       flush_pending_time now s =
         ⟨some { u with talktime := max 0 (u.talktime - max 0 (min (now - slot.last_heartbeat) 15)) }, none⟩) ∧
    (s.slot = none →
       flush_pending_time now s = s ∧ end_secure_session now s = (s, true)) ∧
    (end_secure_session now (end_secure_session now s).1).1 =
      (end_secure_session now s).1 := by
  obtain ⟨su, sl⟩ := s
  have hsu : su = some u := hu
  subst hsu
  refine ⟨?_, ?_, ?_⟩
  · intro slot hsl
    have hslot : sl = some slot := hsl
    subst hslot
    have hc := clamp_eq (now - slot.last_heartbeat)
    simp only [flush_pending_time]
    rw [hc]
    by_cases hpos : max 0 (min (now - slot.last_heartbeat) 15) > 0
    · rw [if_pos hpos]
    · rw [if_neg hpos]
      have hz : max 0 (min (now - slot.last_heartbeat) 15) = 0 :=
        le_antisymm (not_lt.mp hpos) (le_max_left _ _)
      rw [hz, sub_zero, max_eq_right h0]
  · intro hsl
    have hslot : sl = none := hsl
    subst hslot
    exact ⟨rfl, rfl⟩
  · exact flush_noop now (flush_pending_time now ⟨some u, sl⟩)
      (flush_slot_none now ⟨some u, sl⟩)

/-- Witness for C7: slot 100 seconds stale, balance 20 — delta clamped to
15, balance 5 remains, slot deleted. -/
theorem C7_flush_reconciliation_witness :
    flush_pending_time 100 ⟨some ⟨20, true, none⟩, some ⟨1, 0⟩⟩ =
      ⟨some ⟨5, true, none⟩, none⟩ := by
  have h := (C7_flush_reconciliation 100 ⟨some ⟨20, true, none⟩, some ⟨1, 0⟩⟩
    ⟨20, true, none⟩ rfl (by norm_num)).1 ⟨1, 0⟩ rfl
  rw [h]
  norm_num [min_def, max_def]

/-- The refill condition as the code tests it: community member, and either
never refilled or the stored refill timestamp at least 30 `timedelta`-days
in the past. -/
def refillDue (now : ℚ) (u : UserRecord) : Prop :=
  u.is_community_member = true ∧
    (u.last_community_refill = none ∨
      ∃ lr, u.last_community_refill = some lr ∧ 30 ≤ tdDays (now - lr))

theorem refillDue_b (now : ℚ) (u : UserRecord)
    (hd : u.last_community_refill = none ∨
      ∃ lr, u.last_community_refill = some lr ∧ 30 ≤ tdDays (now - lr)) :
    (match u.last_community_refill with
     | none => true
     | some last_refill => decide (30 ≤ tdDays (now - last_refill))) = true := by
  cases hrf : u.last_community_refill with
  | none => rfl
  | some lr =>
    rcases hd with hnone | ⟨lr', hlr', hge⟩
    · rw [hrf] at hnone
      exact Option.noConfusion hnone
    · rw [hrf] at hlr'
      injection hlr' with h
      subst h
      exact decide_eq_true hge

theorem refillNot_b (now : ℚ) (u : UserRecord)
    (hm : u.is_community_member = true) (hnot : ¬ refillDue now u) :
    (match u.last_community_refill with
     | none => true
     | some last_refill => decide (30 ≤ tdDays (now - last_refill))) = false := by
  cases hrf : u.last_community_refill with
  | none => exact absurd ⟨hm, Or.inl hrf⟩ hnot
  | some lr =>
    apply decide_eq_false
    intro hge
    exact hnot ⟨hm, Or.inr ⟨lr, hrf, hge⟩⟩

theorem refill_eq_true_case (now : ℚ) (u : UserRecord) (sl : Option Slot)
    (hm : u.is_community_member = true)
    (hb : (match u.last_community_refill with
           | none => true
           | some last_refill => decide (30 ≤ tdDays (now - last_refill))) =
            true) :
    check_and_refill_community_bonus now ⟨some u, sl⟩ =
      (⟨some { u with talktime := ((pyInt u.talktime + 900 : ℤ) : ℚ), last_community_refill := some now }, sl⟩, true) := by
  simp [check_and_refill_community_bonus, hm, hb]

theorem refill_eq_false_case (now : ℚ) (u : UserRecord) (sl : Option Slot)
    (hb : u.is_community_member = false ∨
          (match u.last_community_refill with
           | none => true
           | some last_refill => decide (30 ≤ tdDays (now - last_refill))) =
            false) :
    check_and_refill_community_bonus now ⟨some u, sl⟩ = (⟨some u, sl⟩, false) := by
  rcases hb with hm | hb
  · simp [check_and_refill_community_bonus, hm]
  · cases hm : u.is_community_member with
    | false => simp [check_and_refill_community_bonus, hm]
    | true => simp [check_and_refill_community_bonus, hm, hb]

theorem tdDays_lt_30 (d : ℚ) (h : d ≤ 29 * 86400) : ¬ 30 ≤ tdDays d := by
  intro hc
  unfold tdDays at hc
  have h1 : ((30 : ℤ) : ℚ) ≤ d / 86400 :=
    le_trans (by exact_mod_cast hc) (Int.floor_le _)
  have h2 : (30 : ℚ) * 86400 ≤ d := by
    have h3 := (le_div_iff₀ (by norm_num : (0 : ℚ) < 86400)).mp (by exact_mod_cast h1)
    exact h3
  linarith

/-- Counterexample to C8 as stated: with the fractional balance 21/2 (10.5
seconds, reachable through heartbeat deductions), a due refill stores
`int(balance) + 900 = 910` — not balance + 900 = 910.5; the bonus actually
added is 899.5, not exactly 900. -/
theorem C8_counterexample_fractional_balance :
    check_and_refill_community_bonus 0 ⟨some ⟨21 / 2, true, none⟩, none⟩ =
      (⟨some ⟨910, true, some 0⟩, none⟩, true) ∧
    (910 : ℚ) ≠ 21 / 2 + 900 := by
  constructor
  · norm_num [check_and_refill_community_bonus, pyInt]
  · norm_num

/-- C8 (amended): the refill sets the balance to the integer truncation of
the current balance plus 900 and stamps `last_community_refill = now` iff
the user is a community member who was never refilled or whose last refill
is ≥ 30 timedelta-days past; otherwise it is a no-op. A second call within
29 days of a successful refill is a no-op, so the balance changes only
once. -/
theorem C8_refill_truncated_bonus (now now₂ : ℚ) (s : State) (u : UserRecord)
    (hu : s.user = some u) :
    (refillDue now u →
       check_and_refill_community_bonus now s =
         (⟨some { u with talktime := ((pyInt u.talktime + 900 : ℤ) : ℚ), last_community_refill := some now }, s.slot⟩, true)) ∧
    (¬ refillDue now u →
       check_and_refill_community_bonus now s = (s, false)) ∧
    (refillDue now u → now₂ - now ≤ 29 * 86400 →
       check_and_refill_community_bonus now₂
           (check_and_refill_community_bonus now s).1 =
         ((check_and_refill_community_bonus now s).1, false)) := by
  obtain ⟨su, sl⟩ := s
  have hsu : su = some u := hu
  subst hsu
  refine ⟨?_, ?_, ?_⟩
  · rintro ⟨hm, hd⟩
    exact refill_eq_true_case now u sl hm (refillDue_b now u hd)
  · intro hnot
    cases hm : u.is_community_member with
    | false => exact refill_eq_false_case now u sl (Or.inl hm)
    | true => exact refill_eq_false_case now u sl (Or.inr (refillNot_b now u hm hnot))
  · rintro ⟨hm, hd⟩ hwin
    rw [refill_eq_true_case now u sl hm (refillDue_b now u hd)]
    exact refill_eq_false_case now₂ _ sl
      (Or.inr (decide_eq_false (tdDays_lt_30 _ (by linarith))))

/-- Witness for C8 (amended): integer balance 100, refill due, bonus 900
applied once; a day later the second call is a no-op. -/
theorem C8_refill_truncated_bonus_witness :
    check_and_refill_community_bonus 0 ⟨some ⟨100, true, none⟩, none⟩ =
      (⟨some ⟨1000, true, some 0⟩, none⟩, true) ∧
    check_and_refill_community_bonus 86400
        (check_and_refill_community_bonus 0 ⟨some ⟨100, true, none⟩, none⟩).1 =
      ((check_and_refill_community_bonus 0 ⟨some ⟨100, true, none⟩, none⟩).1,
       false) := by
  have h := C8_refill_truncated_bonus 0 86400 ⟨some ⟨100, true, none⟩, none⟩
    ⟨100, true, none⟩ rfl
  have hdue : refillDue 0 ⟨100, true, none⟩ := ⟨rfl, Or.inl rfl⟩
  refine ⟨?_, h.2.2 hdue (by norm_num)⟩
  rw [h.1 hdue]
  norm_num [pyInt]

/-- C10: a check-in by an authenticated user with no ledger record
dereferences the missing record at the membership check, before the
balance/existence guard, so the request dies in the generic 500 handler —
never a 402 insufficient-funds or a 404 response — and no state changes. -/
theorem C10_missing_user_check_in_500 (sid : ℕ) (now : ℚ) (s : State)
    (hu : s.user = none) :
    start_secure_session sid now s = (s, internalErrorResp) ∧
    internalErrorResp.status = 500 ∧
    internalErrorResp.status ≠ 402 ∧ internalErrorResp.status ≠ 404 := by
  obtain ⟨su, sl⟩ := s
  have hsu : su = none := hu
  subst hsu
  exact ⟨rfl, rfl, by decide, by decide⟩

/-- Witness for C10: the empty state. -/
theorem C10_missing_user_check_in_500_witness :
    start_secure_session 1 0 ⟨none, none⟩ = (⟨none, none⟩, internalErrorResp) ∧
    internalErrorResp.status = 500 ∧
    internalErrorResp.status ≠ 402 ∧ internalErrorResp.status ≠ 404 :=
  C10_missing_user_check_in_500 1 0 ⟨none, none⟩ rfl

end RonitAI
